import Mathlib

/-!
Verification of the QuantDash application.

The first half embeds the frontend source files
(`src/frontend/src/pages/Index.tsx`, including the legacy page variant
packed after the current one, and `src/frontend/src/services/api.ts`).
The second half models the backtesting core (Position Tracker,
Simulation Driver, Metrics Calculator) whose Python sources are not in
the repository snapshot; those definitions are modelled from the
specification and are marked as such in their doc comments.
-/

/-- A JavaScript numeric-ish value as it appears in a backend JSON
metric field: a finite number, NaN, or undefined (field absent).
Finite numbers are modelled as rationals. -/
inductive JNum where
  | num (q : ℚ)
  | nan
  | undef
deriving DecidableEq

/-- JavaScript truthiness of a `JNum`: the number 0, NaN and undefined
are falsy, every other number is truthy. -/
def JNum.truthy : JNum → Bool
  | .num q => q != 0
  | .nan => false
  | .undef => false

/-- The JavaScript `||` operator restricted to `JNum` values:
`x || d` is `x` when `x` is truthy and `d` otherwise. -/
def jsOr (x d : JNum) : JNum := if x.truthy then x else d

/-- True exactly when the value is a finite number (not NaN, not
undefined). -/
def JNum.isNum : JNum → Bool
  | .num _ => true
  | _ => false

/-- The metric fields of `result.data` in a backend response, as read by
`handleSubmit` (`Index.tsx`).  Each field may be a finite number, NaN,
or absent. -/
structure BacktestData where
  total_return : JNum
  final_value : JNum
  sharpe_ratio : JNum
  sortino_ratio : JNum
  max_drawdown : JNum
  volatility_pct : JNum
  win_rate : JNum
  total_trades : JNum
  profit_factor : JNum
deriving DecidableEq

/-- The stored results of the current Index page
(`BacktestResults` interface, `Index.tsx` lines 6-19), restricted to its
numeric metric fields. -/
structure BacktestResults where
  total_return : JNum
  final_value : JNum
  sharpe_ratio : JNum
  sortino_ratio : JNum
  max_drawdown : JNum
  volatility_pct : JNum
  win_rate : JNum
  total_trades : JNum
deriving DecidableEq

/-- The stored results of the legacy Index page (second page variant in
`Index.tsx`): its `BacktestResults` interface has no `final_value` and
no `total_trades` field, and adds `profit_factor`. -/
structure LegacyResults where
  total_return : JNum
  sharpe_ratio : JNum
  sortino_ratio : JNum
  max_drawdown : JNum
  volatility_pct : JNum
  win_rate : JNum
  profit_factor : JNum
deriving DecidableEq

/-- The `setResults` payload built by `handleSubmit` of the current
Index page (`Index.tsx` lines 449-462): every metric field is coalesced
with `||`, with `final_value` falling back to `initialCash` and
`win_rate` falling back to `0.0`. -/
def storeResults (initialCash : ℚ) (d : BacktestData) : BacktestResults where
  total_return := jsOr d.total_return (.num 0)
  final_value := jsOr d.final_value (.num initialCash)
  sharpe_ratio := jsOr d.sharpe_ratio (.num 0)
  sortino_ratio := jsOr d.sortino_ratio (.num 0)
  max_drawdown := jsOr d.max_drawdown (.num 0)
  volatility_pct := jsOr d.volatility_pct (.num 0)
  win_rate := jsOr d.win_rate (.num 0)
  total_trades := jsOr d.total_trades (.num 0)

/-- The `setResults` payload built by `handleSubmit` of the legacy Index
page (`Index.tsx` lines 866-878): `win_rate` falls back to `NaN`, the
other metric fields to `0`. -/
def storeResultsLegacy (d : BacktestData) : LegacyResults where
  total_return := jsOr d.total_return (.num 0)
  sharpe_ratio := jsOr d.sharpe_ratio (.num 0)
  sortino_ratio := jsOr d.sortino_ratio (.num 0)
  max_drawdown := jsOr d.max_drawdown (.num 0)
  volatility_pct := jsOr d.volatility_pct (.num 0)
  win_rate := jsOr d.win_rate .nan
  profit_factor := jsOr d.profit_factor (.num 0)

/-- Render guard of the win-rate card in the current Index page
(`Index.tsx` line 652): shown iff `results.win_rate !== undefined`. -/
def winRateShown (r : BacktestResults) : Bool := r.win_rate != JNum.undef

/-- Render guard of the win-rate card in the legacy Index page
(`Index.tsx` line 1019): shown iff `results.win_rate` is truthy. -/
def winRateShownLegacy (r : LegacyResults) : Bool := r.win_rate.truthy

/-- All eight metric fields of a stored result are finite numbers. -/
def allMetricsNum (r : BacktestResults) : Bool :=
  r.total_return.isNum && r.final_value.isNum && r.sharpe_ratio.isNum &&
  r.sortino_ratio.isNum && r.max_drawdown.isNum && r.volatility_pct.isNum &&
  r.win_rate.isNum && r.total_trades.isNum

/-- A value thrown inside the `try` block of `runBacktest`, as the
`catch` block discriminates it: an `Error` carrying a message, or any
non-`Error` value. -/
inductive JSThrown where
  | errorWithMessage (msg : String)
  | nonError
deriving DecidableEq

/-- The body of a parsed backend response (`BacktestResponse` interface,
`api.ts` lines 13-34), restricted to the fields the claims concern. -/
structure BacktestResponse where
  success : Bool
  data : Option BacktestData
  error : Option String
deriving DecidableEq

/-- What the environment did for one `fetch` of POST `/api/backtest`:
the response was ok and its JSON body parsed, or `response.ok` was
false with the given status code, or `fetch`/`response.json()` threw. -/
inductive FetchOutcome where
  | ok (body : BacktestResponse)
  | httpStatus (status : Nat)
  | thrown (e : JSThrown)
deriving DecidableEq

/-- `apiClient.runBacktest` (`api.ts` lines 37-58).  A non-ok response
raises `Error` with message `HTTP error! status: <status>`, which its
own `catch` turns into `success: false`; a thrown `Error` yields its
message verbatim and any other thrown value yields `Unknown error`. -/
def runBacktest (o : FetchOutcome) : BacktestResponse :=
  match o with
  | .ok body => body
  | .httpStatus s =>
      { success := false, data := none,
        error := some ("HTTP error! status: " ++ toString s) }
  | .thrown (.errorWithMessage m) =>
      { success := false, data := none, error := some m }
  | .thrown .nonError =>
      { success := false, data := none, error := some "Unknown error" }

/-- The stored-results state after `handleSubmit` (current Index page)
processes one API result: on `success` the new payload replaces the
previous results; otherwise only an alert fires and the previous
results are kept.  A `success` response whose `data` is undefined makes
the field accesses `result.data.total_return` etc. throw, which lands
in the surrounding `catch` and also leaves the results unchanged. -/
def handleSubmitResults (initialCash : ℚ) (prev : Option BacktestResults)
    (r : BacktestResponse) : Option BacktestResults :=
  if r.success then
    match r.data with
    | some d => some (storeResults initialCash d)
    | none => prev
  else prev

/-- ASCII letter test of the regex `[^A-Za-z]` in `handleSymbolChange`
(`Index.tsx` line 120), on UTF-16 code units: 65-90 are `A`-`Z` and
97-122 are `a`-`z`. -/
def isAsciiLetterCode (c : ℕ) : Bool :=
  (65 ≤ c && c ≤ 90) || (97 ≤ c && c ≤ 122)

/-- `toUpperCase` on one code unit, restricted to ASCII: a lowercase
letter 97-122 is shifted down by 32, everything else is unchanged. -/
def upperCode (c : ℕ) : ℕ := if 97 ≤ c ∧ c ≤ 122 then c - 32 else c

/-- `toLowerCase` on one code unit, restricted to ASCII: an uppercase
letter 65-90 is shifted up by 32, everything else is unchanged. -/
def lowerCode (c : ℕ) : ℕ := if 65 ≤ c ∧ c ≤ 90 then c + 32 else c

/-- `handleSymbolChange` (`Index.tsx` lines 118-122): strings modelled
as lists of UTF-16 code units; every non-letter is removed by
`replace(/[^A-Za-z]/g, '')` and the rest is uppercased. -/
def handleSymbolChange (s : List ℕ) : List ℕ :=
  (s.filter isAsciiLetterCode).map upperCode

/-- `needle` occurs at the start of `hay`. -/
def matchesAt : List ℕ → List ℕ → Bool
  | [], _ => true
  | _ :: _, [] => false
  | n :: ns, h :: hs => (n == h) && matchesAt ns hs

/-- JavaScript `String.includes`: `needle` occurs contiguously somewhere
in `hay` (always true for the empty needle). -/
def jsIncludes : List ℕ → List ℕ → Bool
  | hay, needle =>
    match hay with
    | [] => matchesAt needle []
    | _ :: hs => matchesAt needle hay || jsIncludes hs needle

/-- The filter predicate of the ticker-autocomplete effect (`Index.tsx`
lines 88-90): `ticker.toLowerCase().includes(symbol.toLowerCase())`. -/
def tickerMatches (symbol ticker : List ℕ) : Bool :=
  jsIncludes (ticker.map lowerCode) (symbol.map lowerCode)

/-- The ticker-autocomplete effect (`Index.tsx` lines 84-102): with a
non-empty available list, a non-empty input keeps the matching tickers
and takes the first 20 (`filtered.slice(0, 20)`), an empty input shows
the full list; with no available tickers the list is empty. -/
def filterTickersEffect (available : List (List ℕ)) (symbol : List ℕ) :
    List (List ℕ) :=
  if 0 < available.length then
    if symbol ≠ [] then (available.filter (tickerMatches symbol)).take 20
    else available
  else []

/-- Modelled from the spec: the `SignalBar` record of the missing
backtesting core (`src/backtesting` in the backend, not present in the
snapshot) — a price bar together with the strategy's enter/exit flags;
only the timestamp and close price matter to the Position Tracker. -/
structure SignalBar where
  timestamp : ℕ
  close : ℚ
  enter : Bool
  exit : Bool
deriving DecidableEq

/-- Modelled from the spec: the `PortfolioState` of the missing Position
Tracker — cash and shares held, plus the entry metadata of the open
position, absent while flat. -/
structure PortfolioState where
  cash : ℚ
  shares : ℚ
  entry_price : Option ℚ
  entry_timestamp : Option ℕ
deriving DecidableEq

/-- Modelled from the spec: the immutable `Trade` record of the missing
core, created exactly when a position is fully closed. -/
structure Trade where
  entry_timestamp : ℕ
  exit_timestamp : ℕ
  shares : ℚ
  entry_price : ℚ
  exit_price : ℚ
  profit_loss : ℚ
deriving DecidableEq

/-- Modelled from the spec: the per-bar contract of the missing Position
Tracker.  Flat + enter converts all cash to shares at the close and
records the entry metadata (enter takes priority over a simultaneous
exit flag while flat); holding + exit liquidates entirely at the close
and emits one Trade; everything else is a no-op. -/
def applyBar (s : PortfolioState) (b : SignalBar) :
    PortfolioState × Option Trade :=
  if s.shares = 0 ∧ b.enter then
    ({ cash := 0, shares := s.cash / b.close,
       entry_price := some b.close, entry_timestamp := some b.timestamp },
     none)
  else if 0 < s.shares ∧ b.exit then
    ({ cash := s.shares * b.close, shares := 0,
       entry_price := none, entry_timestamp := none },
     some { entry_timestamp := s.entry_timestamp.getD 0,
            exit_timestamp := b.timestamp,
            shares := s.shares,
            entry_price := s.entry_price.getD 0,
            exit_price := b.close,
            profit_loss := s.shares * (b.close - s.entry_price.getD 0) })
  else (s, none)

/-- Result of one simulation run: the portfolio-value series (one
`(timestamp, value)` pair per input bar), the completed trades, and the
final state. -/
structure SimResult where
  values : List (ℕ × ℚ)
  trades : List Trade
  final : PortfolioState
deriving DecidableEq

/-- Modelled from the spec: one step of the missing Simulation Driver —
apply the bar, append any emitted Trade, then append the mark-to-market
value `cash + shares × close` of the resulting state. -/
def simStep (acc : SimResult) (b : SignalBar) : SimResult :=
  let r := applyBar acc.final b
  { values := acc.values ++ [(b.timestamp, r.1.cash + r.1.shares * b.close)]
    trades := acc.trades ++ r.2.toList
    final := r.1 }

/-- Modelled from the spec: the missing Simulation Driver — start from
the given cash with zero shares and scan the bars in order. -/
def simulate (initialCash : ℚ) (bars : List SignalBar) : SimResult :=
  bars.foldl simStep
    { values := []
      trades := []
      final := { cash := initialCash, shares := 0,
                 entry_price := none, entry_timestamp := none } }

/-- The plain value series of a simulation (timestamps dropped). -/
def valueSeries (r : SimResult) : List ℚ := r.values.map Prod.snd

/-- Per-period simple returns `(V_t − V_{t−1}) / V_{t−1}` of a value
series. -/
def returnsOf (vs : List ℚ) : List ℚ :=
  List.zipWith (fun a b => (b - a) / a) vs vs.tail

/-- Arithmetic mean of a list of rationals (0 on the empty list). -/
def listMean (xs : List ℚ) : ℚ := xs.sum / xs.length

/-- Population variance of a list of rationals (0 on the empty list). -/
def listVariance (xs : List ℚ) : ℚ :=
  ((xs.map fun x => (x - listMean xs) ^ 2).sum) / xs.length

/-- Standard deviation, as a real number. -/
noncomputable def listStdev (xs : List ℚ) : ℝ := Real.sqrt (listVariance xs)

/-- Modelled from the spec: the Sharpe ratio of the missing Metrics
Calculator over a returns series —
`(mean(r_t) − risk_free_rate/252) / stdev(r_t) × sqrt(252)`, defined as
0 when the returns have zero variance. -/
noncomputable def sharpeOfReturns (rf : ℚ) (rs : List ℚ) : ℝ :=
  if listVariance rs = 0 then 0
  else ((listMean rs : ℝ) - (rf : ℝ) / 252) / listStdev rs * Real.sqrt 252

/-- Modelled from the spec: `sharpe_ratio` of a portfolio-value
series. -/
noncomputable def sharpeRatio (rf : ℚ) (vs : List ℚ) : ℝ :=
  sharpeOfReturns rf (returnsOf vs)

/-- Modelled from the spec: `volatility_pct = stdev(r_t) × sqrt(252) ×
100` of a portfolio-value series. -/
noncomputable def volatilityPct (vs : List ℚ) : ℝ :=
  listStdev (returnsOf vs) * Real.sqrt 252 * 100

/-- Drawdowns of a value series given the running peak so far: at each
value the peak is updated to `max peak v` and `(v − peak) / peak` is
recorded. -/
def ddFrom (peak : ℚ) : List ℚ → List ℚ
  | [] => []
  | v :: rest => (v - max peak v) / max peak v :: ddFrom (max peak v) rest

/-- Modelled from the spec: the drawdown series of the missing Metrics
Calculator — `drawdown_t = (V_t − peak_t) / peak_t` with `peak_t` the
running maximum of the series (so the first drawdown is 0). -/
def drawdowns : List ℚ → List ℚ
  | [] => []
  | v :: rest => ddFrom v (v :: rest)

/-- Modelled from the spec:
`max_drawdown_pct = min(drawdown_t) × 100` (0 for an empty series). -/
def maxDrawdownPct (vs : List ℚ) : ℚ := ((drawdowns vs).foldr min 0) * 100

/-- Modelled from the spec: `win_rate_pct` of the missing Metrics
Calculator — `winning_trades / total_trades × 100`, absent when there
are no completed trades. -/
def winRatePct (trades : List Trade) : Option ℚ :=
  if trades.length = 0 then none
  else some ((trades.filter fun t => 0 < t.profit_loss).length /
             (trades.length : ℚ) * 100)

/-- Coalescing any `JNum` with a finite-number default always yields a
finite number. -/
theorem jsOr_num_isNum (x : JNum) (k : ℚ) : (jsOr x (.num k)).isNum = true := by
  cases x with
  | num q =>
    by_cases h : q = 0 <;> simp [jsOr, JNum.truthy, JNum.isNum, h]
  | nan => rfl
  | undef => rfl

/-- C1 counterexample: the legacy page's `handleSubmit` stores `NaN` in
the published `win_rate` field when the backend omits it, so a stored
metric field can be NaN. -/
theorem c1_counterexample :
    (storeResultsLegacy
      { total_return := .num 5, final_value := .num 10500,
        sharpe_ratio := .num 1, sortino_ratio := .num 1,
        max_drawdown := .num (-3), volatility_pct := .num 12,
        win_rate := .undef, total_trades := .num 2,
        profit_factor := .num 2 }).win_rate = JNum.nan := rfl

/-- C1 (amended): in the current Index page every stored metric field is
a finite number — never NaN and never absent — because each field is
coalesced with `||`; but a metric with no defined value is replaced by a
numeric default rather than kept absent (a falsy `win_rate` becomes 0),
and the legacy page stores NaN in `win_rate` whenever the backend's
`win_rate` is falsy. -/
theorem c1_no_special_values (c : ℚ) (d : BacktestData) :
    allMetricsNum (storeResults c d) = true ∧
    (d.win_rate.truthy = false →
      (storeResults c d).win_rate = JNum.num 0 ∧
      (storeResultsLegacy d).win_rate = JNum.nan) := by
  constructor
  · simp [allMetricsNum, storeResults, jsOr_num_isNum]
  · intro h
    constructor <;> simp [storeResults, storeResultsLegacy, jsOr, h]

/-- C1 witness: a concrete backend payload with `win_rate` absent. -/
theorem c1_witness :
    allMetricsNum (storeResults 10000
      { total_return := .num 5, final_value := .num 10500,
        sharpe_ratio := .num 1, sortino_ratio := .num 1,
        max_drawdown := .num (-3), volatility_pct := .num 12,
        win_rate := .undef, total_trades := .num 2,
        profit_factor := .num 2 }) = true ∧
    ((storeResults 10000
      { total_return := .num 5, final_value := .num 10500,
        sharpe_ratio := .num 1, sortino_ratio := .num 1,
        max_drawdown := .num (-3), volatility_pct := .num 12,
        win_rate := .undef, total_trades := .num 2,
        profit_factor := .num 2 }).win_rate = JNum.num 0 ∧
     (storeResultsLegacy
      { total_return := .num 5, final_value := .num 10500,
        sharpe_ratio := .num 1, sortino_ratio := .num 1,
        max_drawdown := .num (-3), volatility_pct := .num 12,
        win_rate := .undef, total_trades := .num 2,
        profit_factor := .num 2 }).win_rate = JNum.nan) := by
  have h := c1_no_special_values 10000
      { total_return := .num 5, final_value := .num 10500,
        sharpe_ratio := .num 1, sortino_ratio := .num 1,
        max_drawdown := .num (-3), volatility_pct := .num 12,
        win_rate := .undef, total_trades := .num 2,
        profit_factor := .num 2 }
  exact ⟨h.1, h.2 rfl⟩

/-- C2 counterexample: a backend response with no completed trades that
omits `win_rate` is stored by the current page with `win_rate = 0` (not
absent), and the `!== undefined` render guard then shows the card. -/
theorem c2_counterexample :
    (storeResults 10000
      { total_return := .num 0, final_value := .num 10000,
        sharpe_ratio := .num 0, sortino_ratio := .num 0,
        max_drawdown := .num 0, volatility_pct := .num 0,
        win_rate := .undef, total_trades := .num 0,
        profit_factor := .undef }).win_rate = JNum.num 0 ∧
    winRateShown (storeResults 10000
      { total_return := .num 0, final_value := .num 10000,
        sharpe_ratio := .num 0, sortino_ratio := .num 0,
        max_drawdown := .num 0, volatility_pct := .num 0,
        win_rate := .undef, total_trades := .num 0,
        profit_factor := .undef }) = true := ⟨rfl, rfl⟩

/-- C2 (amended): when the backend omits `win_rate`, the current page's
`handleSubmit` substitutes the numeric default 0 (via `|| 0.0`) and the
rendered report shows the win-rate card rather than keeping the metric
absent. -/
theorem c2_win_rate_default (c : ℚ) (d : BacktestData)
    (h : d.win_rate = JNum.undef) :
    (storeResults c d).win_rate = JNum.num 0 ∧
    winRateShown (storeResults c d) = true := by
  constructor <;> simp [storeResults, winRateShown, jsOr, h, JNum.truthy]

/-- C2 witness: a concrete backend payload with `win_rate` absent. -/
theorem c2_witness :
    (storeResults 500
      { total_return := .num 0, final_value := .num 500,
        sharpe_ratio := .num 0, sortino_ratio := .num 0,
        max_drawdown := .num 0, volatility_pct := .num 0,
        win_rate := .undef, total_trades := .num 0,
        profit_factor := .undef }).win_rate = JNum.num 0 ∧
    winRateShown (storeResults 500
      { total_return := .num 0, final_value := .num 500,
        sharpe_ratio := .num 0, sortino_ratio := .num 0,
        max_drawdown := .num 0, volatility_pct := .num 0,
        win_rate := .undef, total_trades := .num 0,
        profit_factor := .undef }) = true :=
  c2_win_rate_default 500 _ rfl

/-- C6 counterexample: when the fetch rejects with an `Error` whose
message is the empty string, `runBacktest` returns `success: false`
with an empty — not non-empty — error message, because the catch block
passes `error.message` through verbatim. -/
theorem c6_counterexample :
    runBacktest (FetchOutcome.thrown (JSThrown.errorWithMessage "")) =
      { success := false, data := none, error := some "" } := rfl

/-- C6 (amended): `runBacktest` never propagates a failure to its
caller: a non-ok HTTP status yields `success: false` with the non-empty
message `HTTP error! status: <status>`; a thrown `Error` yields
`success: false` with its message verbatim (non-empty only when the
underlying message is); any other thrown value yields `success: false`
with `Unknown error`; and whenever the response has `success: false`,
`handleSubmit` leaves the previously stored results unchanged. -/
theorem c6_run_backtest_failures :
    (∀ s : Nat, (runBacktest (.httpStatus s)).success = false ∧
      ∃ m, (runBacktest (.httpStatus s)).error = some m ∧ m ≠ "") ∧
    (∀ m, (runBacktest (.thrown (.errorWithMessage m))).success = false ∧
      (runBacktest (.thrown (.errorWithMessage m))).error = some m) ∧
    ((runBacktest (.thrown .nonError)).success = false ∧
      (runBacktest (.thrown .nonError)).error = some "Unknown error") ∧
    (∀ (c : ℚ) (prev : Option BacktestResults) (r : BacktestResponse),
      r.success = false → handleSubmitResults c prev r = prev) := by
  refine ⟨?_, ?_, ⟨rfl, rfl⟩, ?_⟩
  · intro s
    refine ⟨rfl, "HTTP error! status: " ++ toString s, rfl, ?_⟩
    intro h
    have hl := congrArg String.length h
    simp [String.length_append] at hl
    exact absurd hl.1 (by decide)
  · intro m
    exact ⟨rfl, rfl⟩
  · intro c prev r h
    simp [handleSubmitResults, h]

/-- C6 witness: concrete failed outcomes — an HTTP 500 and a failed
response processed by `handleSubmit` with no stored results. -/
theorem c6_witness :
    ((runBacktest (.httpStatus 500)).success = false ∧
      ∃ m, (runBacktest (.httpStatus 500)).error = some m ∧ m ≠ "") ∧
    handleSubmitResults 10000 none
      { success := false, data := none, error := some "boom" } = none :=
  ⟨c6_run_backtest_failures.1 500,
   c6_run_backtest_failures.2.2.2 10000 none
     { success := false, data := none, error := some "boom" } rfl⟩

/-- C7 counterexample: a backend report of `win_rate = 0` with three
completed trades, fed through the legacy page, is stored as NaN (because
`0 || NaN` is NaN) and the truthiness render guard then omits the
win-rate card instead of showing 0.00%. -/
theorem c7_counterexample :
    (storeResultsLegacy
      { total_return := .num (-10), final_value := .num 9000,
        sharpe_ratio := .num (-1), sortino_ratio := .num (-1),
        max_drawdown := .num (-18), volatility_pct := .num 15,
        win_rate := .num 0, total_trades := .num 3,
        profit_factor := .num 0 }).win_rate = JNum.nan ∧
    winRateShownLegacy (storeResultsLegacy
      { total_return := .num (-10), final_value := .num 9000,
        sharpe_ratio := .num (-1), sortino_ratio := .num (-1),
        max_drawdown := .num (-18), volatility_pct := .num 15,
        win_rate := .num 0, total_trades := .num 3,
        profit_factor := .num 0 }) = false := ⟨rfl, rfl⟩

/-- C7 (amended): a backend `win_rate` of exactly 0 is stored as the
number 0 by the current page and its `!== undefined` guard renders the
0.00% card; but the legacy page stores it as NaN (`0 || NaN`) and its
truthiness guard omits the card. -/
theorem c7_zero_win_rate (c : ℚ) (d : BacktestData)
    (h : d.win_rate = JNum.num 0) :
    ((storeResults c d).win_rate = JNum.num 0 ∧
      winRateShown (storeResults c d) = true) ∧
    ((storeResultsLegacy d).win_rate = JNum.nan ∧
      winRateShownLegacy (storeResultsLegacy d) = false) := by
  refine ⟨⟨?_, ?_⟩, ⟨?_, ?_⟩⟩ <;>
    simp [storeResults, storeResultsLegacy, winRateShown, winRateShownLegacy,
      jsOr, h, JNum.truthy]

/-- C7 witness: a concrete all-losing report with `win_rate = 0`. -/
theorem c7_witness :
    ((storeResults 10000
      { total_return := .num (-10), final_value := .num 9000,
        sharpe_ratio := .num (-1), sortino_ratio := .num (-1),
        max_drawdown := .num (-18), volatility_pct := .num 15,
        win_rate := .num 0, total_trades := .num 3,
        profit_factor := .num 0 }).win_rate = JNum.num 0 ∧
      winRateShown (storeResults 10000
      { total_return := .num (-10), final_value := .num 9000,
        sharpe_ratio := .num (-1), sortino_ratio := .num (-1),
        max_drawdown := .num (-18), volatility_pct := .num 15,
        win_rate := .num 0, total_trades := .num 3,
        profit_factor := .num 0 }) = true) ∧
    ((storeResultsLegacy
      { total_return := .num (-10), final_value := .num 9000,
        sharpe_ratio := .num (-1), sortino_ratio := .num (-1),
        max_drawdown := .num (-18), volatility_pct := .num 15,
        win_rate := .num 0, total_trades := .num 3,
        profit_factor := .num 0 }).win_rate = JNum.nan ∧
      winRateShownLegacy (storeResultsLegacy
      { total_return := .num (-10), final_value := .num 9000,
        sharpe_ratio := .num (-1), sortino_ratio := .num (-1),
        max_drawdown := .num (-18), volatility_pct := .num 15,
        win_rate := .num 0, total_trades := .num 3,
        profit_factor := .num 0 }) = false) :=
  c7_zero_win_rate 10000 _ rfl

/-- C8: the current page defaults `final_value` with the falsy
`||` operator, so a reported final value of exactly 0 (wiped-out
portfolio) is stored as `initialCash`, while every non-zero finite
reported value is stored unchanged. -/
theorem c8_final_value_default (c : ℚ) (d : BacktestData) :
    (d.final_value = JNum.num 0 →
      (storeResults c d).final_value = JNum.num c) ∧
    (∀ q : ℚ, q ≠ 0 → d.final_value = JNum.num q →
      (storeResults c d).final_value = JNum.num q) := by
  constructor
  · intro h
    simp [storeResults, jsOr, h, JNum.truthy]
  · intro q hq h
    simp [storeResults, jsOr, h, JNum.truthy, hq]

/-- C8 witness: a wiped-out portfolio (`final_value = 0`) is stored as
the initial cash 10000, and a reported value of 250 is kept. -/
theorem c8_witness :
    (storeResults 10000
      { total_return := .num (-100), final_value := .num 0,
        sharpe_ratio := .num (-2), sortino_ratio := .num (-2),
        max_drawdown := .num (-100), volatility_pct := .num 50,
        win_rate := .num 0, total_trades := .num 4,
        profit_factor := .num 0 }).final_value = JNum.num 10000 ∧
    (storeResults 10000
      { total_return := .num (-97), final_value := .num 250,
        sharpe_ratio := .num (-2), sortino_ratio := .num (-2),
        max_drawdown := .num (-98), volatility_pct := .num 50,
        win_rate := .num 0, total_trades := .num 4,
        profit_factor := .num 0 }).final_value = JNum.num 250 :=
  ⟨(c8_final_value_default 10000 _).1 rfl,
   (c8_final_value_default 10000 _).2 250 (by norm_num) rfl⟩

/-- Boolean extensionality through propositional equivalence. -/
theorem bool_of_iff {a b : Bool} (h : a = true ↔ b = true) : a = b := by
  cases a <;> cases b <;> simp_all

/-- Uppercasing a code unit does not change whether it is an ASCII
letter. -/
theorem isAsciiLetterCode_upperCode (c : ℕ) :
    isAsciiLetterCode (upperCode c) = isAsciiLetterCode c := by
  apply bool_of_iff
  simp only [isAsciiLetterCode, upperCode, Bool.or_eq_true, Bool.and_eq_true,
    decide_eq_true_eq]
  split_ifs with h <;> omega

/-- C9: `handleSymbolChange` stores exactly the uppercase form of the
input with every non-letter removed (removing first and uppercasing
after, as the source does, agrees with uppercasing first), so every
stored code unit lies in the range `A`(65) to `Z`(90). -/
theorem c9_symbol_sanitized (s : List ℕ) :
    (handleSymbolChange s).all (fun c => 65 ≤ c && c ≤ 90) = true ∧
    handleSymbolChange s = (s.map upperCode).filter isAsciiLetterCode := by
  constructor
  · induction s with
    | nil => rfl
    | cons c t ih =>
      simp only [handleSymbolChange, List.filter_cons] at *
      by_cases h : isAsciiLetterCode c = true
      · simp only [h, if_true, List.map_cons, List.all_cons, Bool.and_eq_true]
        refine ⟨?_, ih⟩
        simp only [isAsciiLetterCode, Bool.or_eq_true, Bool.and_eq_true,
          decide_eq_true_eq] at h
        simp only [upperCode, Bool.and_eq_true, decide_eq_true_eq]
        split_ifs with hif <;> omega
      · simp only [h, if_false]
        exact ih
  · induction s with
    | nil => rfl
    | cons c t ih =>
      simp only [handleSymbolChange, List.filter_cons, List.map_cons] at *
      rw [isAsciiLetterCode_upperCode]
      by_cases h : isAsciiLetterCode c = true
      · simp only [h, if_true, List.map_cons]
        rw [ih]
      · simp only [h, if_false]
        exact ih

/-- C10: with a non-empty input the autocomplete list is the first 20
available tickers containing the input case-insensitively (hence at
most 20 entries); with an empty input it is the full available list;
and it is always a subset of the available tickers. -/
theorem c10_ticker_filter (available : List (List ℕ)) (symbol : List ℕ) :
    (symbol ≠ [] → (filterTickersEffect available symbol).length ≤ 20 ∧
      filterTickersEffect available symbol =
        (available.filter (tickerMatches symbol)).take 20) ∧
    (symbol = [] → filterTickersEffect available symbol = available) ∧
    (∀ t ∈ filterTickersEffect available symbol, t ∈ available) := by
  refine ⟨?_, ?_, ?_⟩
  · intro hs
    unfold filterTickersEffect
    by_cases ha : 0 < available.length
    · rw [if_pos ha, if_pos hs]
      refine ⟨?_, rfl⟩
      rw [List.length_take]
      exact min_le_left _ _
    · have he : available = [] := by
        cases available with
        | nil => rfl
        | cons a l => simp at ha
      subst he
      simp
  · intro hs
    unfold filterTickersEffect
    by_cases ha : 0 < available.length
    · rw [if_pos ha, if_neg (by simp [hs])]
    · have he : available = [] := by
        cases available with
        | nil => rfl
        | cons a l => simp at ha
      subst he
      simp
  · intro t ht
    unfold filterTickersEffect at ht
    split_ifs at ht with h1 h2
    · exact List.mem_of_mem_filter (List.mem_of_mem_take ht)
    · exact ht
    · simp at ht

/-- C10 witness: three available tickers `A`, `BA`, `C` and the typed
input `a`. -/
theorem c10_witness :
    (filterTickersEffect [[65], [66, 65], [67]] [97]).length ≤ 20 ∧
    filterTickersEffect [[65], [66, 65], [67]] [97] =
      (([[65], [66, 65], [67]] : List (List ℕ)).filter
        (tickerMatches [97])).take 20 ∧
    [65] ∈ ([[65], [66, 65], [67]] : List (List ℕ)) := by
  obtain ⟨h1, h2⟩ :=
    (c10_ticker_filter [[65], [66, 65], [67]] [97]).1 (by decide)
  exact ⟨h1, h2,
    (c10_ticker_filter [[65], [66, 65], [67]] [97]).2.2 [65] (by decide)⟩

/-- C3: the Position Tracker contract per bar — flat + enter converts
all cash to shares at the close and records the entry metadata; holding
+ exit liquidates entirely at the close and emits exactly one Trade;
enter while holding and exit while flat are no-ops; and both flags set
while flat act as enter only. -/
theorem c3_position_tracker (s : PortfolioState) (b : SignalBar) :
    (s.shares = 0 → b.enter = true →
      applyBar s b =
        ({ cash := 0, shares := s.cash / b.close,
           entry_price := some b.close,
           entry_timestamp := some b.timestamp }, none)) ∧
    (0 < s.shares → b.exit = true →
      applyBar s b =
        ({ cash := s.shares * b.close, shares := 0,
           entry_price := none, entry_timestamp := none },
         some { entry_timestamp := s.entry_timestamp.getD 0,
                exit_timestamp := b.timestamp,
                shares := s.shares,
                entry_price := s.entry_price.getD 0,
                exit_price := b.close,
                profit_loss := s.shares *
                  (b.close - s.entry_price.getD 0) })) ∧
    (0 < s.shares → b.enter = true → b.exit = false →
      applyBar s b = (s, none)) ∧
    (s.shares = 0 → b.exit = true → b.enter = false →
      applyBar s b = (s, none)) ∧
    (s.shares = 0 → b.enter = true → b.exit = true →
      applyBar s b =
        ({ cash := 0, shares := s.cash / b.close,
           entry_price := some b.close,
           entry_timestamp := some b.timestamp }, none)) := by
  refine ⟨?_, ?_, ?_, ?_, ?_⟩
  · intro h1 h2
    rw [applyBar, if_pos ⟨h1, h2⟩]
  · intro h1 h2
    rw [applyBar, if_neg, if_pos ⟨h1, h2⟩]
    rintro ⟨h0, -⟩
    exact absurd h0 (ne_of_gt h1)
  · intro h1 h2 h3
    rw [applyBar, if_neg, if_neg]
    · rintro ⟨-, hx⟩
      rw [h3] at hx
      exact Bool.false_ne_true hx
    · rintro ⟨h0, -⟩
      exact absurd h0 (ne_of_gt h1)
  · intro h1 h2 h3
    rw [applyBar, if_neg, if_neg]
    · rintro ⟨hgt, -⟩
      rw [h1] at hgt
      exact lt_irrefl 0 hgt
    · rintro ⟨-, he⟩
      rw [h3] at he
      exact Bool.false_ne_true he
  · intro h1 h2 h3
    rw [applyBar, if_pos ⟨h1, h2⟩]

/-- C3 witness: starting flat with 10000 cash, an enter bar at close 100
buys 10000/100 shares; holding those shares with entry price 100, an
exit bar at close 120 liquidates and emits the one Trade. -/
theorem c3_witness :
    applyBar { cash := 10000, shares := 0,
               entry_price := none, entry_timestamp := none }
      { timestamp := 1, close := 100, enter := true, exit := false } =
      ({ cash := 0, shares := 10000 / 100,
         entry_price := some 100, entry_timestamp := some 1 }, none) ∧
    applyBar { cash := 0, shares := 100,
               entry_price := some 100, entry_timestamp := some 1 }
      { timestamp := 3, close := 120, enter := false, exit := true } =
      ({ cash := 100 * 120, shares := 0,
         entry_price := none, entry_timestamp := none },
       some { entry_timestamp := (some 1 : Option ℕ).getD 0,
              exit_timestamp := 3, shares := 100,
              entry_price := (some (100 : ℚ)).getD 0, exit_price := 120,
              profit_loss := 100 * (120 - (some (100 : ℚ)).getD 0) }) :=
  ⟨(c3_position_tracker
      { cash := 10000, shares := 0,
        entry_price := none, entry_timestamp := none }
      { timestamp := 1, close := 100, enter := true, exit := false }).1
      rfl rfl,
   (c3_position_tracker
      { cash := 0, shares := 100,
        entry_price := some 100, entry_timestamp := some 1 }
      { timestamp := 3, close := 120, enter := false, exit := true }).2.1
      (by norm_num) rfl⟩

/-- The population variance of a list of rationals is nonnegative. -/
theorem listVariance_nonneg (xs : List ℚ) : 0 ≤ listVariance xs := by
  unfold listVariance
  apply div_nonneg
  · apply List.sum_nonneg
    intro x hx
    obtain ⟨y, -, rfl⟩ := List.mem_map.mp hx
    exact sq_nonneg _
  · exact_mod_cast Nat.zero_le _

/-- The standard deviation vanishes exactly when the variance does. -/
theorem listStdev_eq_zero_iff (xs : List ℚ) :
    listStdev xs = 0 ↔ listVariance xs = 0 := by
  unfold listStdev
  rw [Real.sqrt_eq_zero (by exact_mod_cast listVariance_nonneg xs)]
  norm_cast

/-- Variance of the singleton zero-returns list. -/
theorem variance_single_zero : listVariance [(0 : ℚ)] = 0 := by
  norm_num [listVariance, listMean]

/-- A two-bar series at a constant positive close price keeps the
portfolio value constant at the initial cash, whatever the enter/exit
flags. -/
theorem two_bar_values (c p : ℚ) (t1 t2 : ℕ) (e1 x1 e2 x2 : Bool)
    (hc : 0 < c) (hp : 0 < p) :
    valueSeries (simulate c
      [{ timestamp := t1, close := p, enter := e1, exit := x1 },
       { timestamp := t2, close := p, enter := e2, exit := x2 }]) =
      [c, c] := by
  have hp' : p ≠ 0 := ne_of_gt hp
  have hdiv : c / p * p = c := div_mul_cancel₀ c hp'
  have hpos : 0 < c / p := div_pos hc hp
  have hne : c / p ≠ 0 := ne_of_gt hpos
  cases e1 <;> cases x1 <;> cases e2 <;> cases x2 <;>
    simp [simulate, simStep, applyBar, valueSeries, hdiv, hp', hne, hpos,
      lt_irrefl (0 : ℚ)]

/-- The returns of a constant two-point value series are a single 0. -/
theorem returns_const_pair (c : ℚ) : returnsOf [c, c] = [0] := by
  simp [returnsOf]

/-- C4: the Sharpe ratio is
`(mean(r_t) − rf/252) / stdev(r_t) × sqrt(252)` over the per-period
simple returns, is 0 by convention whenever the returns' standard
deviation is 0, and every two-bar simulation at a constant price has
`volatility_pct = 0` and `sharpe_ratio = 0`. -/
theorem c4_sharpe_ratio :
    (∀ (rf : ℚ) (rs : List ℚ), listStdev rs = 0 →
      sharpeOfReturns rf rs = 0) ∧
    (∀ (rf : ℚ) (rs : List ℚ), listStdev rs ≠ 0 →
      sharpeOfReturns rf rs =
        ((listMean rs : ℝ) - (rf : ℝ) / 252) / listStdev rs *
          Real.sqrt 252) ∧
    (∀ (c p : ℚ) (t1 t2 : ℕ) (e1 x1 e2 x2 : Bool) (rf : ℚ),
      0 < c → 0 < p →
      volatilityPct (valueSeries (simulate c
        [{ timestamp := t1, close := p, enter := e1, exit := x1 },
         { timestamp := t2, close := p, enter := e2, exit := x2 }])) = 0 ∧
      sharpeRatio rf (valueSeries (simulate c
        [{ timestamp := t1, close := p, enter := e1, exit := x1 },
         { timestamp := t2, close := p, enter := e2, exit := x2 }])) = 0) := by
  refine ⟨?_, ?_, ?_⟩
  · intro rf rs h
    rw [sharpeOfReturns, if_pos ((listStdev_eq_zero_iff rs).mp h)]
  · intro rf rs h
    rw [sharpeOfReturns, if_neg]
    intro hv
    exact h ((listStdev_eq_zero_iff rs).mpr hv)
  · intro c p t1 t2 e1 x1 e2 x2 rf hc hp
    rw [two_bar_values c p t1 t2 e1 x1 e2 x2 hc hp]
    constructor
    · rw [volatilityPct, returns_const_pair, listStdev, variance_single_zero]
      simp
    · rw [sharpeRatio, returns_const_pair, sharpeOfReturns,
        if_pos variance_single_zero]

/-- C4 witness: the zero-stdev convention on the returns list `[0]`, the
general formula on the returns list `[0, 1]`, and a concrete two-bar
constant-price run with 10000 cash at close 100. -/
theorem c4_witness :
    sharpeOfReturns 0 [(0 : ℚ)] = 0 ∧
    sharpeOfReturns 0 [(0 : ℚ), 1] =
      ((listMean [(0 : ℚ), 1] : ℝ) - ((0 : ℚ) : ℝ) / 252) /
        listStdev [(0 : ℚ), 1] * Real.sqrt 252 ∧
    volatilityPct (valueSeries (simulate 10000
      [{ timestamp := 1, close := 100, enter := true, exit := false },
       { timestamp := 2, close := 100, enter := false, exit := false }])) = 0 ∧
    sharpeRatio 0 (valueSeries (simulate 10000
      [{ timestamp := 1, close := 100, enter := true, exit := false },
       { timestamp := 2, close := 100, enter := false, exit := false }])) = 0 := by
  have hvar : listVariance [(0 : ℚ), 1] = 1 / 4 := by
    norm_num [listVariance, listMean]
  have hzero : listStdev [(0 : ℚ)] = 0 := by
    rw [listStdev, variance_single_zero]
    simp
  have hpos : listStdev [(0 : ℚ), 1] ≠ 0 := by
    rw [listStdev, hvar]
    positivity
  obtain ⟨h3, h4⟩ :=
    c4_sharpe_ratio.2.2 10000 100 1 2 true false false false 0
      (by norm_num) (by norm_num)
  exact ⟨c4_sharpe_ratio.1 0 [0] hzero,
    c4_sharpe_ratio.2.1 0 [0, 1] hpos, h3, h4⟩

/-- The drawdown recursion agrees with zipping the values against the
running peaks produced by a `scanl` of `max`. -/
theorem ddFrom_zip (l : List ℚ) : ∀ peak : ℚ,
    ddFrom peak l =
      List.zipWith (fun v p => (v - p) / p) l
        (List.scanl max peak l).tail := by
  induction l with
  | nil => intro peak; rfl
  | cons v rest ih =>
    intro peak
    rw [ddFrom, List.scanl_cons, List.singleton_append, List.tail_cons]
    cases rest with
    | nil => simp [List.scanl, ddFrom]
    | cons w rest' =>
      rw [List.scanl_cons, List.singleton_append, List.zipWith_cons_cons]
      congr 1
      rw [ih (max peak v), List.scanl_cons, List.singleton_append,
        List.tail_cons]

/-- Every drawdown computed from a positive running peak is
nonpositive. -/
theorem ddFrom_nonpos (l : List ℚ) : ∀ peak : ℚ, 0 < peak →
    ∀ d ∈ ddFrom peak l, d ≤ 0 := by
  induction l with
  | nil =>
    intro peak _ d hd
    simp [ddFrom] at hd
  | cons v rest ih =>
    intro peak hpeak d hd
    rw [ddFrom] at hd
    rcases List.mem_cons.mp hd with h | h
    · subst h
      apply div_nonpos_of_nonpos_of_nonneg
      · simp [sub_nonpos, le_max_right]
      · exact le_of_lt (lt_of_lt_of_le hpeak (le_max_left peak v))
    · exact ih (max peak v) (lt_of_lt_of_le hpeak (le_max_left peak v)) d h

/-- Folding `min` over any list of rationals, seeded with 0, is
nonpositive. -/
theorem foldr_min_nonpos (l : List ℚ) : l.foldr min 0 ≤ 0 := by
  induction l with
  | nil => exact le_refl 0
  | cons x t ih => exact le_trans (min_le_right x _) ih

/-- C5: the drawdown series pairs each value with its running peak and
takes `(V_t − peak_t) / peak_t`; each drawdown is nonpositive when the
series starts positive; `max_drawdown_pct` (100 × the minimum drawdown)
is therefore never positive; and the spec's loss scenario (enter at
100, exit at 90 after a peak at 110) yields a strictly negative
`max_drawdown_pct`. -/
theorem c5_max_drawdown :
    (∀ (v : ℚ) (rest : List ℚ),
      drawdowns (v :: rest) =
        List.zipWith (fun x p => (x - p) / p) (v :: rest)
          (List.scanl max v rest)) ∧
    (∀ (v : ℚ) (rest : List ℚ), 0 < v →
      ∀ d ∈ drawdowns (v :: rest), d ≤ 0) ∧
    (∀ vs : List ℚ, maxDrawdownPct vs ≤ 0) ∧
    maxDrawdownPct (valueSeries (simulate 10000
      [{ timestamp := 1, close := 100, enter := true, exit := false },
       { timestamp := 2, close := 110, enter := false, exit := false },
       { timestamp := 3, close := 90, enter := false, exit := true },
       { timestamp := 4, close := 115, enter := false, exit := false }])) <
      0 := by
  refine ⟨?_, ?_, ?_, ?_⟩
  · intro v rest
    rw [drawdowns, ddFrom_zip, List.scanl_cons, List.singleton_append,
      List.tail_cons, max_self]
  · intro v rest hv d hd
    rw [drawdowns] at hd
    exact ddFrom_nonpos _ v hv d hd
  · intro vs
    rw [maxDrawdownPct]
    nlinarith [foldr_min_nonpos (drawdowns vs)]
  · have hvals : valueSeries (simulate 10000
        [{ timestamp := 1, close := 100, enter := true, exit := false },
         { timestamp := 2, close := 110, enter := false, exit := false },
         { timestamp := 3, close := 90, enter := false, exit := true },
         { timestamp := 4, close := 115, enter := false, exit := false }]) =
        [10000, 11000, 9000, 9000] := by
      norm_num [simulate, simStep, applyBar, valueSeries]
    rw [hvals]
    norm_num [maxDrawdownPct, drawdowns, ddFrom, max_def, min_def]

/-- C5 witness: the loss scenario's value series `[10000, 11000, 9000,
9000]` starts positive and all its drawdowns are nonpositive. -/
theorem c5_witness :
    maxDrawdownPct [(10000 : ℚ), 11000, 9000, 9000] ≤ 0 ∧
    (-2 / 11 : ℚ) ≤ 0 := by
  refine ⟨c5_max_drawdown.2.2.1 _, ?_⟩
  have h := c5_max_drawdown.2.1 10000 [11000, 9000, 9000] (by norm_num)
    (-2 / 11)
  apply h
  norm_num [drawdowns, ddFrom, max_def]
